import Mathlib

set_option maxRecDepth 8000

/-!
Shallow embedding of `src/world_population/data_analysis/get_data.py`
(class `WorldBankData`) and proofs about the claims of its specification.

Python machine model used throughout:
* JSON values are `JVal`; a parsed JSON object (Python `dict`) is an
  association list `List (String × JVal)` with insertion order kept.
* Errors a method body can raise are `WBError`; the `exception` decorator
  of the source catches every such error, logs it and returns `None`, so a
  decorated method is embedded as the body (an `Except WBError` value)
  post-composed with `exceptionWrap`, which turns the error into a logged
  value and leaves the object state unchanged.
* `requests.get` and `r.json()` are abstracted by an oracle
  `Nat → Nat → Except WBError WBPage` taking the `page` and `per_page`
  query parameters.
-/

namespace WorldBank

/-- JSON-like values carried in API responses. `nullv` also stands for the
missing values (`NaN`) pandas fills in. -/
inductive JVal where
  | num (v : Int)
  | str (v : String)
  | obj (fields : List (String × JVal))
  | nullv

/-- One record of a page: a parsed JSON object in insertion order. -/
abbrev Rec := List (String × JVal)

/-- Metadata object of a page response (`output[0]`); only the field the
code reads (`total`) is kept. -/
structure Meta where
  total : Nat
deriving DecidableEq, Repr

/-- A parsed page response `[metadata, records]`. -/
structure WBPage where
  meta : Meta
  records : List Rec

/-- A pandas `DataFrame` as observable content: column labels and rows. -/
structure Table where
  cols : List String
  rows : List (List JVal)

/-- The value of `self.data`: `None` after construction, the Python empty
list `[]` (when `get` runs with zero pages), a raw accumulated page, or a
transformed `DataFrame`. -/
inductive DataField where
  | noneD
  | rawEmpty
  | rawD (p : WBPage)
  | tableD (t : Table)

/-- Errors raised inside method bodies. -/
inductive WBError where
  | fileAlreadyExists
  | notDownloaded
  | typeSubscriptNone
  | indexOutOfRange
  | pdAllScalar
  | pdKeyMissing
  | dfSubscript
  | attrMissing
  | transportFail
deriving DecidableEq, Repr

/-- The `exception` decorator: the wrapped body either returns a value or
raises; a raised error is caught, logged (second component) and the caller
receives `None` (first component `Option.none`). -/
def exceptionWrap {α : Type} (r : Except WBError α) : Option α × Option WBError :=
  match r with
  | .ok a => (some a, none)
  | .error e => (none, some e)

/-- Lowering of a string, embedding Python `str.lower` on the identifiers
the code compares against the reserved keywords. -/
def pyLower (s : String) : String := String.mk (s.data.map Char.toLower)

/-- `WorldBankData.base_api_url`. -/
def base_api_url : String := "http://api.worldbank.org/v2"

/-- `WorldBankData._create_url`: the base URL derived from the indicator
and country at construction time. -/
def create_url (indicator country : String) : String :=
  if pyLower indicator = "all" then
    base_api_url ++ "/indicator"
  else if pyLower indicator = "source" then
    base_api_url ++ "/source"
  else
    base_api_url ++ "/country/" ++ country ++ "/indicator/" ++ indicator

/-- `WorldBankData.define_file_name`. -/
def define_file_name (indicator country : String) : String :=
  indicator ++ "_" ++ country ++ ".json"

/-- Does `needle` occur as a prefix of `hay` (over character lists)? -/
def startsWithL : List Char → List Char → Bool
  | [], _ => true
  | _ :: _, [] => false
  | a :: as, b :: bs => a == b && startsWithL as bs

/-- Does `needle` occur as a contiguous sublist of `hay`? Embeds Python
`needle in hay` on strings. -/
def containsL (needle : List Char) : List Char → Bool
  | [] => startsWithL needle []
  | c :: rest => startsWithL needle (c :: rest) || containsL needle rest

/-- Python `'json' in file_name.lower()`. -/
def hasJson (file_name : String) : Bool :=
  containsL "json".data (pyLower file_name).data

/-- File-name resolution of `WorldBankData.__init__`: a falsy argument
(`None` or `""`) is replaced by the default name; a name whose lowering
does not contain `json` gets the `.json` suffix appended. -/
def resolveFileName (indicator country : String) (file_name : Option String) : String :=
  match file_name with
  | none => define_file_name indicator country
  | some s =>
    if s = "" then define_file_name indicator country
    else if hasJson s then s else s ++ ".json"

/-- The state of a `WorldBankData` object. -/
structure Client where
  indicator : String
  country : String
  date : String
  file_name : String
  args : List (String × String)
  url : String
  data : DataField
  data_downloaded : Bool
  data_transformed : Bool

/-- `WorldBankData.__init__`: resolves the file name, raises
`FileExistsError` (uncaught: `__init__` is not decorated, so the error
reaches the caller) when the file exists and overwriting was not
requested, and otherwise builds the initial state. `fileExists` abstracts
`os.path.exists`. -/
def init (indicator country date : String) (file_name : Option String)
    (over_write : Bool) (args : List (String × String))
    (fileExists : String → Bool) : Except WBError Client :=
  let fn := resolveFileName indicator country file_name
  if fileExists fn && !over_write then
    .error .fileAlreadyExists
  else
    .ok { indicator := indicator, country := country, date := date,
          file_name := fn, args := args,
          url := create_url indicator country,
          data := .noneD, data_downloaded := false,
          data_transformed := false }

/-- A client as built by `__init__` with the default arguments, in a file
system where the resolved file name does not exist yet. -/
def sampleClient : Client :=
  { indicator := "SP.POP.TOTL", country := "all", date := "1960:2019",
    file_name := "SP.POP.TOTL_all.json", args := [],
    url := create_url "SP.POP.TOTL" "all",
    data := .noneD, data_downloaded := false, data_transformed := false }

/-- `n_pages = math.ceil(total / per_page)` with `per_page = 1000`. -/
def n_pages (total : Nat) : Nat := ⌈(total : ℚ) / (1000 : ℚ)⌉₊

/-- The page requests issued by the download loop
`for page in range(1, n_pages+1)`: pairs of the `page` and `per_page`
query-parameter values of each request. -/
def pageRequests (total : Nat) : List (Nat × Nat) :=
  (List.range' 1 (n_pages total)).map (fun p => (p, 1000))

/-- Lookup in a Python dict built by inserting the pairs of `l` in order: a
later entry for the same key overrides an earlier one. -/
def pyLookup : List (String × String) → String → Option String
  | [], _ => none
  | kv :: rest, k =>
    match pyLookup rest k with
    | some v => some v
    | none => if kv.1 = k then some kv.2 else none

/-- The `params` dict passed to `requests.get` inside `get_data`: the
format/per_page/page entries, then the extra `self.args` merged last (so
they override), and finally `params['date'] = self.date` assigned when the
indicator is not one of the reserved keywords. -/
def requestParams (c : Client) (page per_page : String) : List (String × String) :=
  let ps := [("format", "json"), ("per_page", per_page), ("page", page)] ++ c.args
  if !(pyLower c.indicator == "all" || pyLower c.indicator == "source") then
    ps ++ [("date", c.date)]
  else
    ps

/-- The accumulation loop of `get` after the first page was copied into
`data`: each further page is folded in by `data[1].extend(output[1])`. -/
def accumStep (acc : WBPage) : List WBPage → WBPage
  | [] => acc
  | q :: rest => accumStep ⟨acc.meta, acc.records ++ q.records⟩ rest

/-- The value `self.data` receives at the end of the loop of `get`: with
zero pages the local `data` is still the empty Python list; otherwise the
first page with the remaining pages' records appended. -/
def accumPages : List WBPage → DataField
  | [] => .rawEmpty
  | p :: rest => .rawD (accumStep p rest)

/-- Sequentially perform the given page requests against the oracle; the
first failing request aborts the loop with its error. -/
def fetchPages (oracle : Nat → Nat → Except WBError WBPage) :
    List (Nat × Nat) → Except WBError (List WBPage)
  | [] => .ok []
  | r :: rest => do
    let p ← oracle r.1 r.2
    let ps ← fetchPages oracle rest
    .ok (p :: ps)

/-- The body of `WorldBankData.get`: an initial request with `page = 1`,
`per_page = 1` reads the total record count; then one request per page with
`per_page = 1000`; on success `self.data` receives the accumulated dataset
and the downloaded flag is set. Any raised error aborts the body before
either field is assigned. -/
def getBody (c : Client) (oracle : Nat → Nat → Except WBError WBPage) :
    Except WBError Client := do
  let first ← oracle 1 1
  let total := first.meta.total
  let pages ← fetchPages oracle (pageRequests total)
  .ok { c with data := accumPages pages, data_downloaded := true }

/-- The decorated `get`: a raised error is logged (second component) and
swallowed, and the object state is left as it was. -/
def get (c : Client) (oracle : Nat → Nat → Except WBError WBPage) :
    Client × Option WBError :=
  match getBody c oracle with
  | .ok c2 => (c2, none)
  | .error e => (c, some e)

/-- First lookup by key in a parsed JSON object. -/
def lookupJ : List (String × JVal) → String → Option JVal
  | [], _ => none
  | kv :: rest, k => if kv.1 = k then some kv.2 else lookupJ rest k

/-- Does the record hold at least one object-valued field?
`pd.DataFrame` on a dict of scalars only raises `ValueError`. -/
def hasDictField (item : Rec) : Bool :=
  item.any (fun kv => match kv.2 with | .obj _ => true | _ => false)

/-- Does some object-valued field of the record contain a `value` key? The
index of `pd.DataFrame(item)` is the union of the inner keys of its
object-valued fields, and `.loc` with the label `value` raises `KeyError`
when `value` is not among them. -/
def hasValueIndex (item : Rec) : Bool :=
  item.any (fun kv => match kv.2 with
    | .obj m => m.any (fun e => e.1 == "value")
    | _ => false)

/-- The cell at column `h` of the `value`-labelled row of
`pd.DataFrame(item, columns=headers)`: the inner `value` entry of an
object-valued field (`NaN` when absent), a scalar broadcast over the
index, or a `NaN` column when the record lacks the key. -/
def cellAt (item : Rec) (h : String) : JVal :=
  match lookupJ item h with
  | some (.obj m) => (lookupJ m "value").getD .nullv
  | some v => v
  | none => .nullv

/-- One iteration of the transform loop: the row
`pd.DataFrame(item, columns=headers).loc` selects at label `value`. -/
def rowOf (headers : List String) (item : Rec) : Except WBError (List JVal) :=
  if !hasDictField item then .error .pdAllScalar
  else if !hasValueIndex item then .error .pdKeyMissing
  else .ok (headers.map (cellAt item))

/-- The appending loop of `transform_data` over all records of the
dataset. -/
def buildRows (headers : List String) : List Rec → Except WBError (List (List JVal))
  | [] => .ok []
  | item :: rest =>
    match rowOf headers item with
    | .error e => .error e
    | .ok row =>
      match buildRows headers rest with
      | .error e => .error e
      | .ok rows => .ok (row :: rows)

/-- The body of `WorldBankData.transform_data`. There is no check of the
downloaded flag: `self.data[1][0].keys()` is evaluated directly, so a
`None` data field raises `TypeError`, an empty list or an empty record
list raises `IndexError`, and an already-transformed `DataFrame` raises on
the integer subscript. On success the headers are the keys of the first
record, `self.data` is replaced by the table and the transformed flag is
set. -/
def transformBody (c : Client) : Except WBError (Table × Client) :=
  match c.data with
  | .noneD => .error .typeSubscriptNone
  | .rawEmpty => .error .indexOutOfRange
  | .tableD _ => .error .dfSubscript
  | .rawD p =>
    match p.records with
    | [] => .error .indexOutOfRange
    | r0 :: _ =>
      match buildRows (r0.map Prod.fst) p.records with
      | .error e => .error e
      | .ok rows =>
        .ok (⟨r0.map Prod.fst, rows⟩,
             { c with data := .tableD ⟨r0.map Prod.fst, rows⟩,
                      data_transformed := true })

/-- The decorated `transform_data`: a raised error is logged and swallowed
(the caller receives `None` instead of the table) and the object state is
unchanged. -/
def transform_data (c : Client) : (Option Table × Option WBError) × Client :=
  match transformBody c with
  | .ok (t, c2) => ((some t, none), c2)
  | .error e => ((none, some e), c)

/-- Python `str` of the optional `file_name` argument as it appears inside
the log message. -/
def pyStrOpt : Option String → String
  | none => "None"
  | some s => s

/-- What `save` writes: newline-delimited JSON records of the transformed
table, or the raw dataset as a single pretty-printed JSON document. -/
inductive SavedContent where
  | jsonLines (t : Table)
  | jsonDoc (d : DataField)

/-- The body of `WorldBankData.save`: raises `ValueError` when the
downloaded flag is unset; otherwise writes to `self.file_name` — the
`file_name` argument appears only in the log message. The result is the
written path, the written content and the emitted log line. When the
transformed flag is set but the data is not a `DataFrame` (unreachable in
normal runs), `self.data.to_json` raises `AttributeError`. -/
def saveBody (c : Client) (file_name : Option String) :
    Except WBError (String × SavedContent × String) :=
  if !c.data_downloaded then .error .notDownloaded
  else if c.data_transformed then
    match c.data with
    | .tableD t =>
      .ok (c.file_name, .jsonLines t,
           "Saving transformed data to file - " ++ pyStrOpt file_name)
    | _ => .error .attrMissing
  else
    .ok (c.file_name, .jsonDoc c.data,
         "Saving data to file - " ++ pyStrOpt file_name)

/-- The decorated `save`: a raised error is logged and swallowed; the
first component is the performed write, when any. -/
def save (c : Client) (file_name : Option String) :
    Option (String × SavedContent × String) × Option WBError :=
  exceptionWrap (saveBody c file_name)

/-- The outcome a caller of the decorated `save` observes: a raised error
would appear as `Except.error`, but the `exception` decorator catches
every error inside, so the call always returns (with `none` in place of a
result when the body raised). -/
def saveCallOutcome (c : Client) (file_name : Option String) :
    Except WBError (Option (String × SavedContent × String)) :=
  Except.ok (save c file_name).1

/-- A downloaded, untransformed client whose first record keeps its own
`value` field as a sub-mapping with keys `A` and `B`. -/
def recEx : Rec :=
  [("name", .obj [("value", .str "x")]),
   ("value", .obj [("A", .num 1), ("B", .num 2)])]

/-- The single-page dataset holding `recEx`. -/
def pageEx : WBPage := ⟨⟨1⟩, [recEx]⟩

/-- A client state right after a successful `get` of `pageEx`. -/
def clientEx : Client :=
  { sampleClient with data := .rawD pageEx, data_downloaded := true }

/-- The table `transform_data` derives from `clientEx`. -/
def tableEx : Table := ⟨["name", "value"], [[.str "x", .nullv]]⟩

/-- The client state after transforming `clientEx`. -/
def clientEx2 : Client :=
  { clientEx with data := .tableD tableEx, data_transformed := true }

end WorldBank

namespace WorldBank

/-- Claim C4: for every constructed client, the derived base URL equals
`{base}/indicator` when the indicator compares case-insensitively equal to
`"all"`, `{base}/source` when it compares case-insensitively equal to
`"source"`, and `{base}/country/{country}/indicator/{indicator}` for every
other indicator string. -/
theorem claim4_create_url (indicator country : String) :
    (pyLower indicator = "all" →
      create_url indicator country = base_api_url ++ "/indicator") ∧
    (pyLower indicator = "source" →
      create_url indicator country = base_api_url ++ "/source") ∧
    (pyLower indicator ≠ "all" → pyLower indicator ≠ "source" →
      create_url indicator country =
        base_api_url ++ "/country/" ++ country ++ "/indicator/" ++ indicator) := by
  refine ⟨fun h => ?_, fun h => ?_, fun h1 h2 => ?_⟩
  · simp [create_url, h]
  · have hne : pyLower indicator ≠ "all" := by
      intro hall
      rw [hall] at h
      exact absurd h (by decide)
    simp [create_url, hne, h]
  · simp [create_url, h1, h2]

/-- Witness for C4 at concrete inputs covering all three branches. -/
theorem claim4_create_url_witness :
    create_url "ALL" "be" = "http://api.worldbank.org/v2/indicator" ∧
    create_url "Source" "be" = "http://api.worldbank.org/v2/source" ∧
    create_url "SP.POP.TOTL" "be" =
      "http://api.worldbank.org/v2/country/be/indicator/SP.POP.TOTL" := by
  refine ⟨?_, ?_, ?_⟩
  · exact (claim4_create_url "ALL" "be").1 (by decide)
  · exact (claim4_create_url "Source" "be").2.1 (by decide)
  · exact (claim4_create_url "SP.POP.TOTL" "be").2.2 (by decide) (by decide)

/-- Claim C7: for every resolved file name that already exists on disk,
constructing a client with `over_write = false` raises the already-exists
error, which propagates to the caller (nothing catches it: `__init__` is
not wrapped by the `exception` decorator). -/
theorem claim7_init_file_exists (indicator country date : String)
    (file_name : Option String) (args : List (String × String))
    (fileExists : String → Bool)
    (h : fileExists (resolveFileName indicator country file_name) = true) :
    init indicator country date file_name false args fileExists =
      Except.error WBError.fileAlreadyExists := by
  simp [init, h]

/-- Witness for C7: a concrete environment in which the resolved default
file name exists. -/
theorem claim7_init_file_exists_witness :
    (fun _ : String => true) (resolveFileName "SP.POP.TOTL" "all" none) = true ∧
    init "SP.POP.TOTL" "all" "1960:2019" none false [] (fun _ => true) =
      Except.error WBError.fileAlreadyExists :=
  ⟨rfl, claim7_init_file_exists "SP.POP.TOTL" "all" "1960:2019" none []
    (fun _ => true) rfl⟩

/-- The loop of `get` appends the records of the remaining pages, in page
order, to the page it starts from. -/
theorem accumStep_spec (acc : WBPage) (ps : List WBPage) :
    accumStep acc ps = ⟨acc.meta, acc.records ++ (ps.map WBPage.records).flatten⟩ := by
  induction ps generalizing acc with
  | nil => simp [accumStep]
  | cons q rest ih =>
    simp [accumStep, ih, List.append_assoc]

/-- Claim C5: for every total record count `t` reported by the initial
request, `get` issues exactly `ceil (t / 1000)` page requests, each with
`per_page = 1000`; in particular for `t = 2500` the page count equals 3. -/
theorem claim5_page_requests (t : Nat) :
    (pageRequests t).length = ⌈(t : ℚ) / 1000⌉₊ ∧
    (∀ r ∈ pageRequests t, r.2 = 1000) ∧
    (pageRequests 2500).length = 3 := by
  refine ⟨by simp [pageRequests, n_pages], ?_, ?_⟩
  · intro r hr
    simp only [pageRequests, List.mem_map] at hr
    obtain ⟨p, _, rfl⟩ := hr
    rfl
  · have h3 : n_pages 2500 = 3 := by
      rw [n_pages, Nat.ceil_eq_iff (by norm_num)]
      norm_num
    simp [pageRequests, h3]

/-- Witness for C5: the first page request for `t = 2500` carries
`per_page = 1000`. -/
theorem claim5_page_requests_witness :
    (1, 1000) ∈ pageRequests 2500 ∧ ((1 : Nat), (1000 : Nat)).2 = 1000 := by
  have hmem : (1, 1000) ∈ pageRequests 2500 := by
    have h3 : n_pages 2500 = 3 := by
      rw [n_pages, Nat.ceil_eq_iff (by norm_num)]
      norm_num
    simp [pageRequests, h3, List.range']
  exact ⟨hmem, (claim5_page_requests 2500).2.1 (1, 1000) hmem⟩

/-- Claim C6: the accumulated dataset holds the metadata of the first page
and the concatenation of all pages' record sequences in page order; in
particular 3 pages of sizes 1000, 1000 and 500 yield 2500 records in their
original order. -/
theorem claim6_accumulate :
    (∀ (p : WBPage) (ps : List WBPage),
      accumPages (p :: ps) =
        .rawD ⟨p.meta, p.records ++ (ps.map WBPage.records).flatten⟩) ∧
    (∀ p1 p2 p3 : WBPage,
      p1.records.length = 1000 → p2.records.length = 1000 →
      p3.records.length = 500 →
      accumPages [p1, p2, p3] =
        .rawD ⟨p1.meta, p1.records ++ (p2.records ++ p3.records)⟩ ∧
      (p1.records ++ (p2.records ++ p3.records)).length = 2500) := by
  constructor
  · intro p ps
    simp [accumPages, accumStep_spec]
  · intro p1 p2 p3 h1 h2 h3
    constructor
    · simp [accumPages, accumStep_spec]
    · simp [h1, h2, h3]

/-- Witness for C6 on three concrete pages of sizes 1000, 1000 and 500. -/
theorem claim6_accumulate_witness :
    (WBPage.mk ⟨2500⟩ (List.replicate 1000 [])).records.length = 1000 ∧
    accumPages [⟨⟨2500⟩, List.replicate 1000 []⟩, ⟨⟨2500⟩, List.replicate 1000 []⟩,
        ⟨⟨2500⟩, List.replicate 500 []⟩] =
      .rawD ⟨⟨2500⟩, List.replicate 1000 [] ++
        (List.replicate 1000 [] ++ List.replicate 500 [])⟩ ∧
    (List.replicate 1000 ([] : Rec) ++
      (List.replicate 1000 [] ++ List.replicate 500 [])).length = 2500 := by
  have h := (claim6_accumulate.2
    ⟨⟨2500⟩, List.replicate 1000 []⟩ ⟨⟨2500⟩, List.replicate 1000 []⟩
    ⟨⟨2500⟩, List.replicate 500 []⟩
    (by simp) (by simp) (by simp))
  exact ⟨by simp, h.1, h.2⟩

/-- Claim C8: if any page request during `get` fails, the error is logged
and swallowed by the `exception` decorator, the `data` field keeps its
previous value, and the downloaded flag remains false. -/
theorem claim8_get_failure (c : Client)
    (oracle : Nat → Nat → Except WBError WBPage) (e : WBError)
    (hb : getBody c oracle = Except.error e)
    (hd : c.data_downloaded = false) :
    get c oracle = (c, some e) ∧
    (get c oracle).1.data = c.data ∧
    (get c oracle).1.data_downloaded = false := by
  refine ⟨by simp [get, hb], ?_, ?_⟩ <;> simp [get, hb, hd]

/-- Witness for C8: a transport failure on the very first request leaves
the freshly constructed client untouched. -/
theorem claim8_get_failure_witness :
    getBody sampleClient (fun _ _ => Except.error WBError.transportFail) =
      Except.error WBError.transportFail ∧
    sampleClient.data_downloaded = false ∧
    get sampleClient (fun _ _ => Except.error WBError.transportFail) =
      (sampleClient, some WBError.transportFail) := by
  refine ⟨rfl, rfl, ?_⟩
  exact (claim8_get_failure sampleClient
    (fun _ _ => Except.error WBError.transportFail) WBError.transportFail rfl rfl).1

/-- Lookup in a dict built from a concatenation: an entry of the second
part (merged later) overrides the first part. -/
theorem pyLookup_append (a b : List (String × String)) (k : String) :
    pyLookup (a ++ b) k =
      match pyLookup b k with
      | some v => some v
      | none => pyLookup a k := by
  induction a with
  | nil => cases h : pyLookup b k <;> simp [pyLookup, h]
  | cons kv rest ih =>
    show (match pyLookup (rest ++ b) k with
      | some v => some v
      | none => if kv.1 = k then some kv.2 else none) = _
    rw [ih]
    cases h : pyLookup b k
    · rfl
    · rfl

/-- Claim C10: an extra filter supplied at construction whose key is
`format`, `per_page` or `page` overrides the client's own parameter of that
name in every request issued by `get`, because `self.args` is merged last
into the params dict. -/
theorem claim10_args_override (c : Client) (page per_page k v : String)
    (hk : k = "format" ∨ k = "per_page" ∨ k = "page")
    (hv : pyLookup c.args k = some v) :
    pyLookup (requestParams c page per_page) k = some v := by
  have hbase : pyLookup ([("format", "json"), ("per_page", per_page),
      ("page", page)] ++ c.args) k = some v := by
    rw [pyLookup_append, hv]
  have hdate : pyLookup [("date", c.date)] k = none := by
    rcases hk with rfl | rfl | rfl <;> simp [pyLookup]
  rw [requestParams]
  by_cases hcase : !(pyLower c.indicator == "all" || pyLower c.indicator == "source")
  · simp only [hcase, if_true]
    rw [pyLookup_append, hdate, hbase]
  · simp only [hcase, if_false]
    exact hbase

/-- Witness for C10: a `per_page` filter of value 50 overrides the
client's per-page parameter in the request params. -/
theorem claim10_args_override_witness :
    ("per_page" = "format" ∨ "per_page" = "per_page" ∨ "per_page" = "page") ∧
    pyLookup [("per_page", "50")] "per_page" = some "50" ∧
    pyLookup (requestParams { sampleClient with args := [("per_page", "50")] }
      "1" "1000") "per_page" = some "50" :=
  ⟨Or.inr (Or.inl rfl), rfl,
    claim10_args_override { sampleClient with args := [("per_page", "50")] }
      "1" "1000" "per_page" "50" (Or.inr (Or.inl rfl)) rfl⟩

/-- Claim C1 counterexample: on a freshly constructed client (downloaded
flag false, `data = None`), `transform_data` does not fail with the
data-not-yet-downloaded error: it raises a `TypeError` from subscripting
`None`, which the `exception` decorator swallows. The transformed flag
does remain false. -/
theorem claim1_counterexample :
    sampleClient.data_downloaded = false ∧
    (transform_data sampleClient).1.2 = some WBError.typeSubscriptNone ∧
    WBError.typeSubscriptNone ≠ WBError.notDownloaded ∧
    (transform_data sampleClient).2.data_transformed = false := by
  refine ⟨rfl, rfl, by decide, rfl⟩

/-- Claim C1 amended: `transform_data` never checks the downloaded flag.
On a client whose `data` field is still `None` (the state of every client
on which fetch has not completed), it fails with a `TypeError` — not the
data-not-yet-downloaded error — which the decorator logs and swallows;
the state is unchanged, so the transformed flag remains false. -/
theorem claim1_transform_before_fetch (c : Client)
    (h : c.data = DataField.noneD) (ht : c.data_transformed = false) :
    transform_data c = ((none, some WBError.typeSubscriptNone), c) ∧
    (transform_data c).2.data_transformed = false := by
  have hb : transformBody c = Except.error WBError.typeSubscriptNone := by
    simp [transformBody, h]
  refine ⟨by simp [transform_data, hb], by simp [transform_data, hb, ht]⟩

/-- Witness for the amended C1 on the freshly constructed client. -/
theorem claim1_transform_before_fetch_witness :
    sampleClient.data = DataField.noneD ∧
    sampleClient.data_transformed = false ∧
    transform_data sampleClient =
      ((none, some WBError.typeSubscriptNone), sampleClient) :=
  ⟨rfl, rfl, (claim1_transform_before_fetch sampleClient rfl rfl).1⟩

/-- Claim C2 counterexample: on a freshly constructed client, `save` does
raise the not-downloaded `ValueError` inside its body, but the
`exception` decorator catches it, so the error never reaches the caller;
the call returns normally (with `None`) and no file is written. -/
theorem claim2_counterexample :
    sampleClient.data_downloaded = false ∧
    saveBody sampleClient none = Except.error WBError.notDownloaded ∧
    saveCallOutcome sampleClient none ≠ Except.error WBError.notDownloaded ∧
    (save sampleClient none).1 = none := by
  refine ⟨rfl, rfl, fun h => Except.noConfusion h, rfl⟩

/-- Claim C2 amended: for every client whose downloaded flag is false,
`save` fails with the not-downloaded error, which the `exception`
decorator logs and swallows — the caller receives `None` rather than the
raised error — and no file is written. -/
theorem claim2_save_before_fetch (c : Client) (fn : Option String)
    (h : c.data_downloaded = false) :
    saveBody c fn = Except.error WBError.notDownloaded ∧
    save c fn = (none, some WBError.notDownloaded) ∧
    saveCallOutcome c fn = Except.ok none := by
  have hb : saveBody c fn = Except.error WBError.notDownloaded := by
    simp [saveBody, h]
  exact ⟨hb, by simp [save, exceptionWrap, hb],
    by simp [saveCallOutcome, save, exceptionWrap, hb]⟩

/-- Witness for the amended C2 on the freshly constructed client. -/
theorem claim2_save_before_fetch_witness :
    sampleClient.data_downloaded = false ∧
    save sampleClient none = (none, some WBError.notDownloaded) :=
  ⟨rfl, (claim2_save_before_fetch sampleClient none rfl).2.1⟩

/-- `buildRows` yields exactly one row per input record when it
succeeds. -/
theorem buildRows_length (headers : List String) :
    ∀ (items : List Rec) (rows : List (List JVal)),
      buildRows headers items = Except.ok rows → rows.length = items.length := by
  intro items
  induction items with
  | nil =>
    intro rows h
    simp only [buildRows] at h
    injection h with h2
    simp [← h2]
  | cons item rest ih =>
    intro rows h
    simp only [buildRows] at h
    cases hro : rowOf headers item with
    | error e => simp [hro] at h
    | ok row =>
      simp only [hro] at h
      cases hbr : buildRows headers rest with
      | error e => simp [hbr] at h
      | ok rows2 =>
        simp only [hbr] at h
        injection h with h2
        simp [← h2, ih rows2 hbr]

/-- Claim C3 counterexample: a downloaded dataset whose first record's
`value` field is the sub-mapping with keys `A` and `B` (next to a `name`
field). `transform_data` takes the keys of the first record itself as
columns, so the produced table has columns `name` and `value`, not
`A` and `B`. -/
theorem claim3_counterexample :
    lookupJ recEx "value" = some (JVal.obj [("A", JVal.num 1), ("B", JVal.num 2)]) ∧
    clientEx.data_downloaded = true ∧
    transformBody clientEx = Except.ok (tableEx, clientEx2) ∧
    tableEx.cols = ["name", "value"] ∧
    "name" ∈ tableEx.cols ∧ "name" ∉ (["A", "B"] : List String) := by
  refine ⟨rfl, rfl, rfl, rfl, by decide, by decide⟩

/-- Claim C3 amended: whenever `transform_data` succeeds on a downloaded
dataset, the produced table's columns are exactly the keys of the first
record itself — not of its `value` sub-mapping — and the table has
exactly one row per record of the dataset. -/
theorem claim3_transform_shape (c : Client) (p : WBPage) (r0 : Rec)
    (rest : List Rec) (t : Table) (c2 : Client)
    (hd : c.data = DataField.rawD p) (hr : p.records = r0 :: rest)
    (hok : transformBody c = Except.ok (t, c2)) :
    t.cols = r0.map Prod.fst ∧ t.rows.length = p.records.length := by
  simp only [transformBody, hd, hr] at hok
  cases hbr : buildRows (r0.map Prod.fst) (r0 :: rest) with
  | error e => simp [hbr] at hok
  | ok rows =>
    simp only [hbr] at hok
    injection hok with h2
    injection h2 with h3 h4
    constructor
    · rw [← h3]
    · rw [← h3, hr]
      exact buildRows_length (r0.map Prod.fst) (r0 :: rest) rows hbr

/-- Witness for the amended C3 on the concrete dataset of the
counterexample. -/
theorem claim3_transform_shape_witness :
    clientEx.data = DataField.rawD pageEx ∧
    pageEx.records = recEx :: [] ∧
    transformBody clientEx = Except.ok (tableEx, clientEx2) ∧
    tableEx.cols = recEx.map Prod.fst ∧
    tableEx.rows.length = pageEx.records.length := by
  have h := claim3_transform_shape clientEx pageEx recEx [] tableEx clientEx2
    rfl rfl rfl
  exact ⟨rfl, rfl, rfl, h.1, h.2⟩

/-- Claim C9: `save` writes to the file name fixed at construction
(`self.file_name`); its `file_name` argument appears only in the log
message and never determines the written path or content. On a
downloaded, untransformed client the raw dataset is written to
`self.file_name`. -/
theorem claim9_save_path (c : Client) (n n2 : Option String) :
    (∀ p content log, (save c n).1 = some (p, content, log) →
      p = c.file_name) ∧
    (save c n).1.map (fun w => (w.1, w.2.1)) =
      (save c n2).1.map (fun w => (w.1, w.2.1)) ∧
    (c.data_downloaded = true → c.data_transformed = false →
      save c n = (some (c.file_name, SavedContent.jsonDoc c.data,
        "Saving data to file - " ++ pyStrOpt n), none)) := by
  cases hd : c.data_downloaded with
  | false =>
    have hb : ∀ m : Option String,
        saveBody c m = Except.error WBError.notDownloaded := by
      intro m
      simp [saveBody, hd]
    refine ⟨?_, ?_, ?_⟩
    · intro p content log h
      simp [save, exceptionWrap, hb] at h
    · simp [save, exceptionWrap, hb]
    · intro hdt
      exact absurd hdt (by decide)
  | true =>
    cases ht : c.data_transformed with
    | false =>
      have hb : ∀ m : Option String,
          saveBody c m = Except.ok (c.file_name, SavedContent.jsonDoc c.data,
            "Saving data to file - " ++ pyStrOpt m) := by
        intro m
        simp [saveBody, hd, ht]
      refine ⟨?_, ?_, ?_⟩
      · intro p content log h
        simp [save, exceptionWrap, hb] at h
        exact h.1.symm
      · simp [save, exceptionWrap, hb]
      · intro _ _
        simp [save, exceptionWrap, hb]
    | true =>
      cases hdata : c.data with
      | tableD t =>
        have hb : ∀ m : Option String,
            saveBody c m = Except.ok (c.file_name, SavedContent.jsonLines t,
              "Saving transformed data to file - " ++ pyStrOpt m) := by
          intro m
          simp [saveBody, hd, ht, hdata]
        refine ⟨?_, ?_, ?_⟩
        · intro p content log h
          simp [save, exceptionWrap, hb] at h
          exact h.1.symm
        · simp [save, exceptionWrap, hb]
        · intro _ hff
          exact absurd hff (by decide)
      | noneD =>
        have hb : ∀ m : Option String,
            saveBody c m = Except.error WBError.attrMissing := by
          intro m
          simp [saveBody, hd, ht, hdata]
        refine ⟨?_, ?_, ?_⟩
        · intro p content log h
          simp [save, exceptionWrap, hb] at h
        · simp [save, exceptionWrap, hb]
        · intro _ hff
          exact absurd hff (by decide)
      | rawEmpty =>
        have hb : ∀ m : Option String,
            saveBody c m = Except.error WBError.attrMissing := by
          intro m
          simp [saveBody, hd, ht, hdata]
        refine ⟨?_, ?_, ?_⟩
        · intro p content log h
          simp [save, exceptionWrap, hb] at h
        · simp [save, exceptionWrap, hb]
        · intro _ hff
          exact absurd hff (by decide)
      | rawD p =>
        have hb : ∀ m : Option String,
            saveBody c m = Except.error WBError.attrMissing := by
          intro m
          simp [saveBody, hd, ht, hdata]
        refine ⟨?_, ?_, ?_⟩
        · intro q content log h
          simp [save, exceptionWrap, hb] at h
        · simp [save, exceptionWrap, hb]
        · intro _ hff
          exact absurd hff (by decide)

/-- Witness for C9: a downloaded client saved under an unrelated argument
still writes to the file name fixed at construction. -/
theorem claim9_save_path_witness :
    clientEx.data_downloaded = true ∧
    clientEx.data_transformed = false ∧
    save clientEx (some "other") =
      (some (clientEx.file_name, SavedContent.jsonDoc clientEx.data,
        "Saving data to file - " ++ pyStrOpt (some "other")), none) :=
  ⟨rfl, rfl, (claim9_save_path clientEx (some "other") none).2.2 rfl rfl⟩

end WorldBank
